import Mathlib

/-!
Verification of the yarn-slinger compilation pipeline core against its
natural-language specification.  The development shallowly embeds the
relevant Rust sources:

* `crates/core/src/value/convertible.rs` — the runtime value model
  (`Convertible`, its coercions and `InvalidCastError`);
* `crates/compiler/src/compiler.rs` — the pipeline orchestrator (`compile`
  and its two registered passes);
* `crates/compiler/src/listeners/compiler_listener.rs` — the code-generator
  listener state machine (`enter_node`, `exit_node`, `exit_header`,
  `enter_body`, `exit_body`).

Rust `f32` payloads are modelled by exact rationals (`ℚ`): every concrete
number appearing in the claims (`1.0`, `1e-7`, `3.9`, …) is exactly
representable or rounds in a way that does not affect the compared
predicates, and the structure of every conversion function is translated
from the source unchanged.  Machine integers that can saturate are modelled
with `ℕ` truncated subtraction (`saturating_sub`) and explicit clamping
(`as` casts).
-/

namespace YarnSlinger

/-- Decidable equality for `Except`, used to evaluate the fallible
conversion functions on concrete inputs. -/
instance {ε α : Type} [DecidableEq ε] [DecidableEq α] :
    DecidableEq (Except ε α) := fun a b =>
  match a, b with
  | .ok x, .ok y =>
    if h : x = y then .isTrue (by rw [h])
    else .isFalse (fun hh => h (by injection hh))
  | .error x, .error y =>
    if h : x = y then .isTrue (by rw [h])
    else .isFalse (fun hh => h (by injection hh))
  | .ok _, .error _ => .isFalse (fun hh => by injection hh)
  | .error _, .ok _ => .isFalse (fun hh => by injection hh)

/-! ## Value conversion model — `crates/core/src/value/convertible.rs` -/

/-- Identity of a Rust runtime type (`std::any::TypeId`), restricted to the
types that occur in `TryFrom<Box<dyn Any>> for Convertible` plus a
representative unrecognized type (`unit`) and the type `Box<dyn Any>`
itself. -/
inductive RustTypeId where
  | f32 | f64
  | i8 | i16 | i32 | i64 | i128
  | u8 | u16 | u32 | u64 | u128
  | usize | isize
  | string | bool
  | unit
  | boxDynAny
  deriving DecidableEq, Repr

/-- Shallow embedding of `InvalidCastError` from `convertible.rs`.  The
Rust variants carry the std parse-error payloads; those payloads hold no
information relevant to the claims and are dropped, except for
`InvalidTypeId`, whose `InvalidDowncastError::InvalidTypeId(TypeId)`
payload is kept. -/
inductive InvalidCastError where
  | ParseFloatError
  | ParseIntError
  | ParseBoolError
  | InvalidTypeId (id : RustTypeId)
  | UninitializedValue
  deriving DecidableEq, Repr

/-- Shallow embedding of `enum Convertible { Number(f32), String(String),
Boolean(bool) }`; the `f32` payload is modelled as `ℚ`. -/
inductive Convertible where
  | Number (value : ℚ)
  | String (value : String)
  | Boolean (value : Bool)
  deriving DecidableEq, Repr

/-- Semantics of Rust's `str::split(sep)` for a one-character separator:
cut the character list at every occurrence of the separator; the empty
input yields one empty piece, as in Rust. -/
def splitChar (sep : Char) : List Char → List (List Char)
  | [] => [[]]
  | c :: rest =>
    let r := splitChar sep rest
    if c = sep then [] :: r
    else
      match r with
      | [] => [[c]]
      | piece :: pieces => (c :: piece) :: pieces

/-- Rust's `str::split(sep)` applied to a `String`, yielding `String`
pieces. -/
def rustSplit (sep : Char) (s : String) : List String :=
  (splitChar sep s.data).map fun piece => { data := piece }

/-- Value of a nonempty list of decimal digits, `none` when some character
is not a digit or the list is empty. -/
def decimalDigits? (l : List Char) : Option ℕ :=
  if l = [] then none
  else if l.all Char.isDigit then
    some (l.foldl (fun acc c => 10 * acc + (c.toNat - '0'.toNat)) 0)
  else none

/-- Semantics of Rust's `str::parse::<f32>` as used by
`TryFrom<Convertible> for f32`, restricted to plain decimal literals
(optional sign, integer digits, optional fraction): exponent forms and the
`inf`/`NaN` spellings do not occur in any claim and are omitted.  Returns
the exact rational value; Rust additionally rounds to the nearest `f32`,
which does not affect any predicate compared in the claims. -/
def f32_from_str (s : String) : Option ℚ :=
  let (sign, digits) : ℚ × List Char :=
    match s.data with
    | [] => (1, [])
    | c :: rest =>
      if c = '-' then (-1, rest)
      else if c = '+' then (1, rest)
      else (1, c :: rest)
  match splitChar '.' digits with
  | [intPart] => (decimalDigits? intPart).map fun n => sign * n
  | [intPart, fracPart] =>
    match decimalDigits? intPart, decimalDigits? fracPart with
    | some i, some f =>
      some (sign * ((i : ℚ) + (f : ℚ) / (10 : ℚ) ^ fracPart.length))
    | some i, none =>
      if fracPart = [] then some (sign * i) else none
    | none, some f =>
      if intPart = [] then some (sign * ((f : ℚ) / (10 : ℚ) ^ fracPart.length))
      else none
    | none, none => none
  | _ => none

/-- Semantics of Rust's `str::parse::<bool>` (`std::str::FromStr for bool`):
exactly the spellings `"true"` and `"false"` are accepted. -/
def bool_from_str (s : String) : Option Bool :=
  if s = "true" then some true
  else if s = "false" then some false
  else none

/-- Shallow embedding of `impl TryFrom<Convertible> for f32`
(convertible.rs lines 24–34): a `Number` passes through, a `String` is
parsed as a float (a failure becoming `ParseFloatError` via the `From`
conversion into `InvalidCastError`), a `Boolean` maps to `1.0` / `0.0`. -/
def f32_try_from : Convertible → Except InvalidCastError ℚ
  | .Number value => .ok value
  | .String value =>
    match f32_from_str value with
    | some q => .ok q
    | none => .error .ParseFloatError
  | .Boolean value => .ok (if value then 1 else 0)

/-- Shallow embedding of `impl TryFrom<Convertible> for bool`
(convertible.rs lines 98–108): a `Number` compares against `0.0`, a
`String` is parsed as a bool (failure becoming `ParseBoolError`), a
`Boolean` passes through. -/
def bool_try_from : Convertible → Except InvalidCastError Bool
  | .Number value => .ok (decide (value ≠ 0))
  | .String value =>
    match bool_from_str value with
    | some b => .ok b
    | none => .error .ParseBoolError
  | .Boolean value => .ok value

/-- Shallow embedding of `impl TryFrom<Convertible> for String`
(convertible.rs lines 74–84); every arm succeeds. -/
def string_try_from : Convertible → Except InvalidCastError String
  | .Number value => .ok (toString value)
  | .String value => .ok value
  | .Boolean value => .ok (toString value)

/-- Shallow embedding of `Convertible::eq` (convertible.rs lines 15–22):
two `Number`s compare by `(a - b).abs() < epsilon`; every other pair by the
derived `PartialEq` (structural equality).  Both arms return `Ok`. -/
def Convertible.eq (a b : Convertible) (epsilon : ℚ) :
    Except InvalidCastError Bool :=
  match a, b with
  | .Number x, .Number y => .ok (decide (|x - y| < epsilon))
  | x, y => .ok (decide (x = y))

/-- One integer target type of the `impl_from_numeral!` macro invocation
(convertible.rs line 72), with the value range of the Rust type; `usize`
and `isize` are taken at the 64-bit platform width. -/
inductive IntTarget where
  | i8 | i16 | i32 | i64 | i128
  | u8 | u16 | u32 | u64 | u128
  | usize | isize
  deriving DecidableEq, Repr

/-- Smallest value of an integer target type. -/
def IntTarget.minVal : IntTarget → ℤ
  | .i8 => -(2 ^ 7) | .i16 => -(2 ^ 15) | .i32 => -(2 ^ 31)
  | .i64 => -(2 ^ 63) | .i128 => -(2 ^ 127) | .isize => -(2 ^ 63)
  | _ => 0

/-- Largest value of an integer target type. -/
def IntTarget.maxVal : IntTarget → ℤ
  | .i8 => 2 ^ 7 - 1 | .i16 => 2 ^ 15 - 1 | .i32 => 2 ^ 31 - 1
  | .i64 => 2 ^ 63 - 1 | .i128 => 2 ^ 127 - 1 | .isize => 2 ^ 63 - 1
  | .u8 => 2 ^ 8 - 1 | .u16 => 2 ^ 16 - 1 | .u32 => 2 ^ 32 - 1
  | .u64 => 2 ^ 64 - 1 | .u128 => 2 ^ 128 - 1 | .usize => 2 ^ 64 - 1

/-- Truncation of a rational toward zero, the rounding of Rust's
float-to-integer `as` cast. -/
def ratTrunc (q : ℚ) : ℤ := if 0 ≤ q then ⌊q⌋ else ⌈q⌉

/-- Semantics of Rust's `value as $from_type` cast from `f32` to an integer
type: truncate toward zero, then saturate to the target's range. -/
def IntTarget.cast (t : IntTarget) (q : ℚ) : ℤ :=
  let n := ratTrunc q
  if n < t.minVal then t.minVal
  else if t.maxVal < n then t.maxVal
  else n

/-- Shallow embedding of the `impl TryFrom<Convertible> for $from_type`
generated by `impl_from_numeral!` for each integer width (convertible.rs
lines 61–67): `f32::try_from(value).map(|value| value as $from_type)`. -/
def int_try_from (t : IntTarget) (value : Convertible) :
    Except InvalidCastError ℤ :=
  (f32_try_from value).map t.cast

/-- One `Box<dyn Any>` runtime value, as far as
`TryFrom<Box<dyn Any>> for Convertible` can observe it: either a value of
one of the downcast-tested primitive types (float payloads as `ℚ`, integer
payloads as `ℤ`, already narrowed by each type's range on the Rust side),
or a value of some other type, of which only the `TypeId` is observable. -/
inductive AnyValue where
  | vf32 (value : ℚ) | vf64 (value : ℚ)
  | vi8 (value : ℤ) | vi16 (value : ℤ) | vi32 (value : ℤ)
  | vi64 (value : ℤ) | vi128 (value : ℤ)
  | vu8 (value : ℕ) | vu16 (value : ℕ) | vu32 (value : ℕ)
  | vu64 (value : ℕ) | vu128 (value : ℕ)
  | vusize (value : ℕ) | visize (value : ℤ)
  | vstring (value : String) | vbool (value : Bool)
  | vother (id : RustTypeId)
  deriving DecidableEq, Repr

/-- TypeId of the value held inside the box (what
`(*value).type_id()` / `dyn Any::type_id` would report). -/
def AnyValue.innerTypeId : AnyValue → RustTypeId
  | .vf32 _ => .f32 | .vf64 _ => .f64
  | .vi8 _ => .i8 | .vi16 _ => .i16 | .vi32 _ => .i32
  | .vi64 _ => .i64 | .vi128 _ => .i128
  | .vu8 _ => .u8 | .vu16 _ => .u16 | .vu32 _ => .u32
  | .vu64 _ => .u64 | .vu128 _ => .u128
  | .vusize _ => .usize | .visize _ => .isize
  | .vstring _ => .string | .vbool _ => .bool
  | .vother id => id

/-- Shallow embedding of `impl TryFrom<Box<dyn Any>> for Convertible`
(convertible.rs lines 128–170).  The chain of `downcast_ref::<T>()` tests
resolves through `dyn Any` and inspects the inner value's type; integer
payloads convert by `as f32` (exact here, `ℤ` mapping into `ℚ`).  In the
final `else` branch the source calls `value.type_id()` on
`value: Box<dyn Any>`; `Box<dyn Any>` itself implements `Any`, and Rust
method resolution selects that implementation before unsizing the receiver,
so this expression is `TypeId::of::<Box<dyn Any>>()` — the constant type id
of the box type, not the inner value's type id. -/
def convertible_try_from_any : AnyValue → Except InvalidCastError Convertible
  | .vf32 value => .ok (.Number value)
  | .vf64 value => .ok (.Number value)
  | .vi8 value => .ok (.Number (value : ℚ))
  | .vi16 value => .ok (.Number (value : ℚ))
  | .vi32 value => .ok (.Number (value : ℚ))
  | .vi64 value => .ok (.Number (value : ℚ))
  | .vi128 value => .ok (.Number (value : ℚ))
  | .vu8 value => .ok (.Number (value : ℚ))
  | .vu16 value => .ok (.Number (value : ℚ))
  | .vu32 value => .ok (.Number (value : ℚ))
  | .vu64 value => .ok (.Number (value : ℚ))
  | .vu128 value => .ok (.Number (value : ℚ))
  | .vusize value => .ok (.Number (value : ℚ))
  | .visize value => .ok (.Number (value : ℚ))
  | .vstring value => .ok (.String value)
  | .vbool value => .ok (.Boolean value)
  | .vother _ => .error (.InvalidTypeId .boxDynAny)

/-! ## Pipeline orchestrator — `crates/compiler/src/compiler.rs` -/

/-- Severity of a diagnostic.  Modelled from the spec: "severity
(error/warning/info)"; the file `diagnostic.rs` is not among the shown
sources, and `Diagnostic::from_message` defaults to the error severity (the
spec calls the missing-title diagnostic an error diagnostic). -/
inductive DiagnosticSeverity where
  | Error | Warning | Info
  deriving DecidableEq, Repr

/-- Source position: line and character, both zero-based. -/
structure Position where
  line : ℕ
  character : ℕ
  deriving DecidableEq, Repr

/-- Diagnostic record.  Modelled from the spec ("severity, message, file
name, source position/span"; `diagnostic.rs` is not among the shown
sources); `from_message` sets the message, `with_file_name` the file name,
and `with_parser_context` the context position, which the listener derives
from the parser rule context and token stream. -/
structure Diagnostic where
  message : String
  file_name : Option String := none
  context_position : Option Position := none
  severity : DiagnosticSeverity := .Error
  deriving DecidableEq, Repr

/-- Opcode of one bytecode instruction.  The opcode enumeration lives in
the core crate's `instruction.rs`, not among the shown sources; the spec
names only the terminal "stop" opcode, so `Stop` is modelled exactly and
every other emitted instruction is represented by its emitting construct:
`TrackingUpdate` for the tracking instrumentation appended at body exit
(modelled from the spec) and `StatementCode` for instructions lowered from
body statements by the code-generation visitor. -/
inductive OpCode where
  | Stop
  | TrackingUpdate (variable_name : String)
  | StatementCode (tag : ℕ)
  deriving DecidableEq, Repr

/-- Bytecode instruction: opcode plus originating source position (the
operands, irrelevant to every claim, are folded into the `OpCode`
payloads). -/
structure Instruction where
  opcode : OpCode
  position : Position
  deriving DecidableEq, Repr

/-- Header key/value pair of a node (`Header { key, value }`). -/
structure Header where
  key : String
  value : String
  deriving DecidableEq, Repr

/-- Compiled node.  Modelled from the spec's data model ("name, ordered
header list, ordered instruction sequence, label table, tag set, optional
raw-text string identifier"); the struct itself lives in the core crate,
not among the shown sources, and these are exactly the fields the shown
listener reads and writes.  The label table and the tag set keep insertion
order as lists. -/
structure Node where
  name : String := ""
  headers : List Header := []
  instructions : List Instruction := []
  labels : List (String × ℤ) := []
  tags : List String := []
  source_text_string_id : Option String := none
  deriving DecidableEq, Repr

/-- Program: mapping from node name to node, keyed by first insertion
(`HashMap` guarded by a `contains_key` check in the listener, modelled as
an association list looked up by first match). -/
structure Program where
  nodes : List (String × Node) := []
  deriving DecidableEq, Repr

/-- Debug information for one node: node name, file name, and the mapping
from instruction index to source position.  Modelled from the spec
("per-node record mapping instruction index to source position, plus node
name and file name"); `debug_info.rs` is not among the shown sources. -/
structure DebugInfo where
  node_name : String := ""
  file_name : String := ""
  line_positions : List (ℕ × Position) := []
  deriving DecidableEq, Repr

/-- String-table entry.  Modelled from the spec ("line identifier → text,
file name, node name, line number, tag set, implicit-tag flag");
`string_info.rs` is not among the shown sources.  No shown code constructs
one. -/
structure StringInfo where
  text : String := ""
  file_name : String := ""
  node_name : String := ""
  line_number : ℕ := 0
  tags : List String := []
  is_implicit_tag : Bool := false
  deriving DecidableEq, Repr

/-- Variable or function declaration.  Modelled from the spec (pre-existing
variable declarations of a job, optional declarations of a result);
`declaration.rs` is not among the shown sources and no shown code inspects
one, so the payload is reduced to a name. -/
structure Declaration where
  name : String
  deriving DecidableEq, Repr

/-- Compilation type flag (`CompilationType`).  Modelled from the spec
("a compilation-type flag (e.g. full compilation vs. type-check-only)");
`compilation_job.rs` is not among the shown sources. -/
inductive CompilationType where
  | FullCompilation
  | TypeCheck
  deriving DecidableEq, Repr

/-- Source file of a job: name and text.  Modelled from the spec ("ordered
sequence of source files (name + text)"). -/
structure File where
  file_name : String
  source : String
  deriving DecidableEq, Repr

/-- Function library.  Modelled from the spec ("mapping from function name
to signature/type info"); no shown code inspects one, so the signature
payload is reduced to the function names. -/
structure Library where
  function_names : List String := []
  deriving DecidableEq, Repr

/-- Compilation job.  Modelled from the spec's data model; the struct lives
in `compilation_job.rs`, not among the shown sources, and these are the
fields the shown `compile` test constructs (`files`, `library`,
`compilation_type`, `variable_declarations`). -/
structure CompilationJob where
  files : List File := []
  library : Option Library := none
  compilation_type : CompilationType := .FullCompilation
  variable_declarations : List Declaration := []
  deriving DecidableEq, Repr

/-- Compilation result, with exactly the fields `compile` initializes
(compiler.rs lines 23–31). -/
structure CompilationResult where
  program : Option Program := none
  string_table : List (String × StringInfo) := []
  declarations : Option (List Declaration) := none
  contains_implicit_string_tags : Bool := false
  file_tags : List (String × List String) := []
  diagnostics : List Diagnostic := []
  debug_info : List DebugInfo := []
  deriving DecidableEq, Repr

/-- Shallow embedding of `add_built_in_types` (compiler.rs lines 60–62):
returns `previous` unchanged. -/
def add_built_in_types (_job : CompilationJob) (previous : CompilationResult) :
    CompilationResult :=
  previous

/-- Shallow embedding of `create_string_tables` (compiler.rs lines 64–69):
returns `previous` unchanged. -/
def create_string_tables (_job : CompilationJob) (previous : CompilationResult) :
    CompilationResult :=
  previous

/-- Initial `CompilationResult` constructed inside `compile` (compiler.rs
lines 23–31). -/
def initialCompilationResult : CompilationResult :=
  { program := none
    string_table := []
    declarations := none
    contains_implicit_string_tags := false
    file_tags := []
    diagnostics := []
    debug_info := [] }

/-- Shallow embedding of `compile` (compiler.rs lines 19–36): folds the
registered compiler steps, in order `add_built_in_types` then
`create_string_tables`, over the initial result. -/
def compile (compilation_job : CompilationJob) : CompilationResult :=
  let compiler_steps : List (CompilationJob → CompilationResult → CompilationResult) :=
    [add_built_in_types, create_string_tables]
  compiler_steps.foldl (fun acc curr => curr compilation_job acc)
    initialCompilationResult

/-! ## Code-generator listener —
`crates/compiler/src/listeners/compiler_listener.rs`

The listener walks one file's parse tree; the parser layer is external, so
each callback takes the data it reads from its rule context as parameters
(header key/value text, the closing token's line, the context position used
for diagnostics).  The statement visitor (`CodeGenerationVisitor`, not
among the shown sources) lowers body statements to instructions through
`CompilerListener::emit`; `enter_body` therefore takes the list of
instructions the visitor emits for the body's statements. -/

/-- State of `CompilerListener` (compiler_listener.rs lines 22–39).  The
`Rc<RefCell<…>>` shared-ownership wrappers are dropped (the pipeline is
single-threaded and single-writer); `types : KnownTypes` is read only by
the statement visitor and is omitted along with it.  The `file` parse
result contributes only its name here. -/
structure CompilerListener where
  debug_infos : List DebugInfo := []
  program : Program := {}
  tracking_nodes : List String := []
  diagnostics : List Diagnostic := []
  current_node : Option Node := none
  current_debug_info : DebugInfo := {}
  is_current_node_raw_text : Bool := false
  file_name : String := ""
  label_count : ℕ := 0
  deriving DecidableEq, Repr

/-- Shallow embedding of `CompilerListener::register_label`
(compiler_listener.rs lines 65–70): builds `"L{count}{commentary}"` and
increments the label counter. -/
def register_label (commentary : Option String) (s : CompilerListener) :
    String × CompilerListener :=
  let commentary := commentary.getD ""
  let label := "L" ++ toString s.label_count ++ commentary
  (label, { s with label_count := s.label_count + 1 })

/-- Shallow embedding of `CompilerListener::emit` (module
`listeners/compiler_listener/emit.rs`, not among the shown sources),
modelled from the spec: append the instruction to the current node's
instruction sequence and record its source position in the current debug
info under the instruction's index.  When no node is current the source
unwraps and panics; that unreachable state is modelled as a no-op. -/
def emit (instruction : Instruction) (s : CompilerListener) :
    CompilerListener :=
  match s.current_node with
  | none => s
  | some node =>
    let index := node.instructions.length
    { s with
      current_node :=
        some { node with instructions := node.instructions ++ [instruction] }
      current_debug_info :=
        { s.current_debug_info with
          line_positions :=
            s.current_debug_info.line_positions ++ [(index, instruction.position)] } }

/-- Modelled from the spec:
`Library::generate_unique_visited_variable_for_node` (core crate, not among
the shown sources) computes "a unique tracking-variable name
deterministically from the node name". -/
def generate_unique_visited_variable_for_node (node_name : String) : String :=
  "$Yarn.Internal.Visiting." ++ node_name

/-- Modelled from the spec:
`CodeGenerationVisitor::generate_tracking_code` (visitor module, not among
the shown sources) appends "tracking-update instructions" for the tracking
variable through the listener's `emit`; the exact instruction sequence is
not specified and is represented as one tracking-update instruction. -/
def generate_tracking_code (tracking_variable : String)
    (s : CompilerListener) : CompilerListener :=
  emit { opcode := .TrackingUpdate tracking_variable
         position := { line := 0, character := 0 } } s

/-- Modelled from the spec: `get_line_id_for_node_name` (compiler crate,
not among the shown sources) yields "the node's associated line
identifier", a stable key derived from the node name. -/
def get_line_id_for_node_name (node_name : String) : String :=
  "line:" ++ node_name

/-- Shallow embedding of `CompilerListener::enter_node`
(compiler_listener.rs lines 76–81): reset the per-node accumulator. -/
def enter_node (s : CompilerListener) : CompilerListener :=
  { s with
    current_node := some {}
    current_debug_info := {}
    is_current_node_raw_text := false }

/-- Shallow embedding of `CompilerListener::exit_node`
(compiler_listener.rs lines 83–110).  `context_position` stands for the
position information `with_parser_context` extracts from the node's rule
context and token stream.  With an empty node name only a diagnostic is
pushed; otherwise the node is inserted into the program unless its name is
already present (the duplicate arm is an empty comment in the source), and
a debug-info record tagged with node and file name is pushed. -/
def exit_node (context_position : Position) (s : CompilerListener) :
    CompilerListener :=
  match s.current_node with
  | none => s
  | some node =>
    let s :=
      if node.name = "" then
        { s with
          diagnostics := s.diagnostics ++
            [{ message := "Missing title header for node"
               file_name := some s.file_name
               context_position := some context_position }] }
      else
        let s :=
          if (s.program.nodes.lookup node.name).isNone then
            { s with
              program := { nodes := s.program.nodes ++ [(node.name, node)] } }
          else
            -- Duplicate node name: the source leaves a comment deferring to
            -- the declarations pass and does nothing here.
            s
        let cdi :=
          { s.current_debug_info with
            node_name := node.name
            file_name := s.file_name }
        { s with
          current_debug_info := cdi
          debug_infos := s.debug_infos ++ [cdi] }
    { s with current_node := none, is_current_node_raw_text := false }

/-- Shallow embedding of `CompilerListener::exit_header`
(compiler_listener.rs lines 112–151).  `header_key` is the key token's
text; `header_value` is the value token's text when present (`None` maps to
the empty string, as in the source).  A `title` key sets the node name; a
`tags` key splits the value on single spaces, extends the tag list, and
flags the node as raw text when the tag list then contains `"rawText"`; the
header pair itself is always appended. -/
def exit_header (header_key : String) (header_value : Option String)
    (s : CompilerListener) : CompilerListener :=
  match s.current_node with
  | none => s
  | some node =>
    let header_value := header_value.getD ""
    let (node, raw) :=
      if header_key = "title" then
        ({ node with name := header_value }, s.is_current_node_raw_text)
      else if header_key = "tags" then
        let tags := node.tags ++ rustSplit ' ' header_value
        (({ node with tags := tags } : Node),
          if tags.contains "rawText" then true else s.is_current_node_raw_text)
      else
        (node, s.is_current_node_raw_text)
    let node :=
      { node with
        headers := node.headers ++ [{ key := header_key, value := header_value }] }
    { s with current_node := some node, is_current_node_raw_text := raw }

/-- Shallow embedding of `CompilerListener::enter_body`
(compiler_listener.rs lines 153–179).  For a syntactic node: register a
label pointing at the current instruction count, then let the statement
visitor lower every body statement, emitting `statement_instructions`
through `emit`.  For a raw-text node: emit nothing and attach the line
identifier derived from the node name as the source-text string id. -/
def enter_body (statement_instructions : List Instruction)
    (s : CompilerListener) : CompilerListener :=
  if !s.is_current_node_raw_text then
    let (label, s) := register_label none s
    match s.current_node with
    | none => s
    | some node =>
      let node :=
        { node with
          labels := node.labels ++ [(label, (node.instructions.length : ℤ))] }
      let s := { s with current_node := some node }
      statement_instructions.foldl (fun acc i => emit i acc) s
  else
    match s.current_node with
    | none => s
    | some node =>
      { s with
        current_node :=
          some { node with
                 source_text_string_id :=
                   some (get_line_id_for_node_name node.name) } }

/-- Shallow embedding of `CompilerListener::exit_body`
(compiler_listener.rs lines 181–202).  `stop_token_line` is
`ctx.stop().line as usize`.  If the current node's name is in the tracking
set, tracking code is generated first; then a `Stop` instruction is emitted
unconditionally, at line `stop_token_line.saturating_sub(1)` (`ℕ`
subtraction) and character `0`. -/
def exit_body (stop_token_line : ℕ) (s : CompilerListener) :
    CompilerListener :=
  match s.current_node with
  | none => s
  | some node =>
    let track :=
      if s.tracking_nodes.contains node.name then
        some (generate_unique_visited_variable_for_node node.name)
      else
        none
    let s :=
      match track with
      | some tracking_variable => generate_tracking_code tracking_variable s
      | none => s
    emit { opcode := .Stop
           position := { line := stop_token_line - 1, character := 0 } } s

/-! ## Derived instruction forms and test fixtures -/

/-- Terminal instruction appended by `exit_body`: the `Stop` opcode at the
closing token's line saturating-minus one, character `0`. -/
def stopInstruction (stop_token_line : ℕ) : Instruction :=
  { opcode := .Stop
    position := { line := stop_token_line - 1, character := 0 } }

/-- Instructions `exit_body` emits before the terminal stop: the tracking
update when the node's name is in the tracking set, nothing otherwise. -/
def trackingInstructions (tracking_nodes : List String) (node_name : String) :
    List Instruction :=
  if tracking_nodes.contains node_name then
    [{ opcode := .TrackingUpdate (generate_unique_visited_variable_for_node node_name)
       position := { line := 0, character := 0 } }]
  else []

/-- Compilation job with zero files, the concrete input of claim C1. -/
def emptyJob : CompilationJob :=
  { files := []
    library := none
    compilation_type := .FullCompilation
    variable_declarations := [] }

/-- Fresh listener over a file named `test.yarn`, with no tracking
nodes. -/
def listener0 : CompilerListener := { file_name := "test.yarn" }

/-- Listener state inside a node whose only processed header is
`title: Start`. -/
def titledListener : CompilerListener :=
  exit_header "title" (some "Start") (enter_node listener0)

/-- Node accumulated by `titledListener`. -/
def startNode : Node :=
  { name := "Start", headers := [{ key := "title", value := "Start" }] }

/-- Listener state inside a node with headers `title: Raw` and
`tags: rawText` — a raw-text node. -/
def rawListener : CompilerListener :=
  exit_header "tags" (some "rawText")
    (exit_header "title" (some "Raw") (enter_node listener0))

/-- Node accumulated by `rawListener`. -/
def rawNode : Node :=
  { name := "Raw"
    headers := [{ key := "title", value := "Raw" }, { key := "tags", value := "rawText" }]
    tags := ["rawText"] }

/-- Statement instruction used to give duplicate nodes distinct bodies. -/
def stmtInstr (tag : ℕ) : Instruction :=
  { opcode := .StatementCode tag, position := { line := 0, character := 0 } }

/-- Listener state after fully compiling a first node titled `A` whose
body's single statement lowered to `stmtInstr 1`. -/
def dupStep1 : CompilerListener :=
  exit_node { line := 0, character := 0 }
    (exit_body 1
      (enter_body [stmtInstr 1]
        (exit_header "title" (some "A") (enter_node listener0))))

/-- Listener state at the exit of a second node also titled `A`, body
lowered to `stmtInstr 2`, just before `exit_node` runs. -/
def dupPending : CompilerListener :=
  exit_body 2
    (enter_body [stmtInstr 2]
      (exit_header "title" (some "A") (enter_node dupStep1)))

/-- Listener state after `exit_node` for the duplicate node. -/
def dupStep2 : CompilerListener :=
  exit_node { line := 0, character := 0 } dupPending

/-- First compiled node titled `A` (as inserted into the program by
`dupStep1`). -/
def nodeA1 : Node :=
  { name := "A"
    headers := [{ key := "title", value := "A" }]
    instructions := [stmtInstr 1, { opcode := .Stop, position := { line := 0, character := 0 } }]
    labels := [("L0", 0)] }

/-- Second (duplicate) node titled `A`, the current node of
`dupPending`. -/
def nodeA2 : Node :=
  { name := "A"
    headers := [{ key := "title", value := "A" }]
    instructions := [stmtInstr 2, { opcode := .Stop, position := { line := 1, character := 0 } }]
    labels := [("L1", 0)] }

/-! ## Claims about the pipeline orchestrator -/

/-- Claim C1, counterexample: on the job with zero files, `compile` does
not return an empty `Program` — it returns no `Program` at all
(`program = none`), so the claim as stated (an empty `Program`, an empty
string table and no diagnostics) is false at this input. -/
theorem compile_empty_job_claim_false :
    ¬ ((compile emptyJob).program = some { nodes := [] } ∧
       (compile emptyJob).string_table = [] ∧
       (compile emptyJob).diagnostics = []) := by
  intro h
  exact Option.noConfusion (h.1.symm.trans (rfl : (compile emptyJob).program = none))

/-- Claim C1, amended: for every compilation job whose list of files is
empty, `compile` returns a result with no `Program` (`program` is `None`),
an empty string table and an empty diagnostics list. -/
theorem compile_empty_job_result (job : CompilationJob)
    (_hfiles : job.files = []) :
    (compile job).program = none ∧
    (compile job).string_table = [] ∧
    (compile job).diagnostics = [] :=
  ⟨rfl, rfl, rfl⟩

/-- Claim C1, witness: the amended statement applied to the concrete empty
job. -/
theorem compile_empty_job_result_witness :
    emptyJob.files = [] ∧
    ((compile emptyJob).program = none ∧
     (compile emptyJob).string_table = [] ∧
     (compile emptyJob).diagnostics = []) :=
  ⟨rfl, compile_empty_job_result emptyJob rfl⟩

/-- Claim C2: for every compilation job, `compile` is the fold of its two
registered passes over the initial result, both passes return their input
unchanged, and therefore the returned result equals the initial value in
every field: `program` is `none`, the string table is empty, `declarations`
is `none`, `contains_implicit_string_tags` is `false`, and the file tags,
diagnostics and debug info are all empty. -/
theorem compile_identity_fold (job : CompilationJob) :
    compile job =
      create_string_tables job (add_built_in_types job initialCompilationResult) ∧
    (∀ (j : CompilationJob) (p : CompilationResult), add_built_in_types j p = p) ∧
    (∀ (j : CompilationJob) (p : CompilationResult), create_string_tables j p = p) ∧
    compile job = initialCompilationResult ∧
    (compile job).program = none ∧
    (compile job).string_table = [] ∧
    (compile job).declarations = none ∧
    (compile job).contains_implicit_string_tags = false ∧
    (compile job).file_tags = [] ∧
    (compile job).diagnostics = [] ∧
    (compile job).debug_info = [] :=
  ⟨rfl, fun _ _ => rfl, fun _ _ => rfl, rfl, rfl, rfl, rfl, rfl, rfl, rfl, rfl⟩

/-! ## Claims about the value conversion model -/

/-- Claim C7: `Convertible::eq` compares two `Number` values by
`|a - b| < epsilon` for the caller-supplied epsilon and every other pair by
exact (structural) equality; in particular `Number(1.0)` and
`Number(1.0 + 1e-7)` are equal under epsilon `1e-6` and unequal under
epsilon `1e-9`. -/
theorem convertible_eq_spec :
    (∀ (x y eps : ℚ),
      Convertible.eq (.Number x) (.Number y) eps = .ok (decide (|x - y| < eps))) ∧
    (∀ (a b : Convertible) (eps : ℚ),
      ((∀ x : ℚ, a ≠ .Number x) ∨ (∀ y : ℚ, b ≠ .Number y)) →
        Convertible.eq a b eps = .ok (decide (a = b))) ∧
    Convertible.eq (.Number 1) (.Number (1 + 1 / 10 ^ 7)) (1 / 10 ^ 6) = .ok true ∧
    Convertible.eq (.Number 1) (.Number (1 + 1 / 10 ^ 7)) (1 / 10 ^ 9) = .ok false := by
  refine ⟨fun x y eps => rfl, fun a b eps h => ?_, ?_, ?_⟩
  · cases a with
    | Number x =>
      cases b with
      | Number y =>
        rcases h with h | h
        · exact absurd rfl (h x)
        · exact absurd rfl (h y)
      | String sb => rfl
      | Boolean bb => rfl
    | String sa => cases b <;> rfl
    | Boolean ba => cases b <;> rfl
  · show Except.ok (decide (|(1 : ℚ) - (1 + 1 / 10 ^ 7)| < 1 / 10 ^ 6)) = .ok true
    norm_num
    rw [abs_of_pos (by norm_num)]
    norm_num
  · show Except.ok (decide (|(1 : ℚ) - (1 + 1 / 10 ^ 7)| < 1 / 10 ^ 9)) = .ok false
    norm_num
    rw [abs_of_pos (by norm_num)]
    norm_num

/-- Claim C7, witness: the general exact-equality arm applied to the
concrete non-`Number` pair `String "a"` vs `Boolean true`. -/
theorem convertible_eq_spec_witness :
    Convertible.eq (.String "a") (.Boolean true) 1 = .ok false := by
  have h := convertible_eq_spec.2.1 (.String "a") (.Boolean true) 1
    (Or.inl fun x hx => Convertible.noConfusion hx)
  simpa using h

/-- Claim C8: converting `Convertible::String` to `bool` succeeds exactly
for the canonical boolean literal spellings: `"true"` yields `true`, and
text such as `"maybe"` fails with the `ParseBoolError` variant of
`InvalidCastError`. -/
theorem bool_try_from_string_spec :
    (∀ s : String,
      (∃ b, bool_try_from (.String s) = .ok b) ↔ (s = "true" ∨ s = "false")) ∧
    bool_try_from (.String "true") = .ok true ∧
    bool_try_from (.String "false") = .ok false ∧
    bool_try_from (.String "maybe") = .error .ParseBoolError := by
  refine ⟨fun s => ⟨fun ⟨b, hb⟩ => ?_, fun h => ?_⟩, rfl, rfl, rfl⟩
  · by_cases h1 : s = "true"
    · exact Or.inl h1
    by_cases h2 : s = "false"
    · exact Or.inr h2
    · simp [bool_try_from, bool_from_str, h1, h2] at hb
  · rcases h with rfl | rfl
    · exact ⟨true, rfl⟩
    · exact ⟨false, rfl⟩

/-- Claim C8, witness: the success characterization applied at the
concrete text `"true"`. -/
theorem bool_try_from_string_spec_witness :
    ("true" = "true" ∨ "true" = "false") :=
  (bool_try_from_string_spec.1 "true").mp ⟨true, bool_try_from_string_spec.2.1⟩

/-- Claim C9: converting a boxed dynamic host value into `Convertible`
succeeds for every recognized primitive type, and for any other underlying
type fails with an invalid-type-id error — but the attached type id is the
constant `TypeId::of::<Box<dyn Any>>()`, because `value.type_id()` on
`value : Box<dyn Any>` resolves to the `Any` implementation of the box
itself; it is not the offending inner value's type identity (here `unit`),
contradicting the claim's diagnostic purpose. -/
theorem convertible_try_from_any_spec :
    (∀ q : ℚ, convertible_try_from_any (.vf32 q) = .ok (.Number q)) ∧
    (∀ q : ℚ, convertible_try_from_any (.vf64 q) = .ok (.Number q)) ∧
    (∀ n : ℤ, convertible_try_from_any (.vi32 n) = .ok (.Number (n : ℚ))) ∧
    (∀ n : ℕ, convertible_try_from_any (.vu64 n) = .ok (.Number (n : ℚ))) ∧
    (∀ s : String, convertible_try_from_any (.vstring s) = .ok (.String s)) ∧
    (∀ b : Bool, convertible_try_from_any (.vbool b) = .ok (.Boolean b)) ∧
    (∀ id : RustTypeId,
      convertible_try_from_any (.vother id) = .error (.InvalidTypeId .boxDynAny)) ∧
    convertible_try_from_any (.vother .unit) = .error (.InvalidTypeId .boxDynAny) ∧
    (AnyValue.vother .unit).innerTypeId = .unit ∧
    RustTypeId.boxDynAny ≠ RustTypeId.unit :=
  ⟨fun _ => rfl, fun _ => rfl, fun _ => rfl, fun _ => rfl, fun _ => rfl,
    fun _ => rfl, fun _ => rfl, rfl, rfl, by decide⟩

/-- Claim C10: every integer conversion from `Convertible` first converts
to `f32` and then applies the Rust `as` cast; converting a `String` to an
integer target therefore succeeds exactly when the text parses as a
floating-point number (`"3.9"` yields `3`, the fraction truncated), and no
`Convertible` conversion ever returns the `ParseIntError` variant of
`InvalidCastError`. -/
theorem int_try_from_spec :
    (∀ (t : IntTarget) (v : Convertible),
      int_try_from t v = (f32_try_from v).map t.cast) ∧
    (∀ (t : IntTarget) (s : String),
      (∃ n, int_try_from t (.String s) = .ok n) ↔ (f32_from_str s).isSome = true) ∧
    int_try_from .i32 (.String "3.9") = .ok 3 ∧
    (∀ (t : IntTarget) (v : Convertible), int_try_from t v ≠ .error .ParseIntError) ∧
    (∀ v : Convertible, f32_try_from v ≠ .error .ParseIntError) ∧
    (∀ v : Convertible, bool_try_from v ≠ .error .ParseIntError) ∧
    (∀ v : Convertible, string_try_from v ≠ .error .ParseIntError) ∧
    (∀ a : AnyValue, convertible_try_from_any a ≠ .error .ParseIntError) := by
  have hparse : f32_from_str "3.9" = some (39 / 10) := by
    have hdata : "3.9".data = ['3', '.', '9'] := rfl
    have hsplit : splitChar '.' ['3', '.', '9'] = [['3'], ['9']] := by decide
    have hint : decimalDigits? ['3'] = some 3 := by decide
    have hfrac : decimalDigits? ['9'] = some 9 := by decide
    have hneg : ¬ ('3' = '-') := by decide
    have hpos : ¬ ('3' = '+') := by decide
    simp only [f32_from_str, hdata, if_neg hneg, if_neg hpos, hsplit, hint, hfrac,
      List.length_singleton]
    norm_num
  have hfloat : ∀ v : Convertible, f32_try_from v ≠ .error .ParseIntError := by
    intro v
    cases v with
    | Number x => simp [f32_try_from]
    | String s =>
      cases h : f32_from_str s <;> simp [f32_try_from, h]
    | Boolean b => simp [f32_try_from]
  refine ⟨fun t v => rfl, fun t s => ?_, ?_, fun t v => ?_, hfloat, fun v => ?_,
    fun v => ?_, fun a => ?_⟩
  · cases h : f32_from_str s <;>
      simp [int_try_from, f32_try_from, h, Except.map]
  · have hcast : IntTarget.i32.cast (39 / 10) = 3 := by
      have htrunc : ratTrunc (39 / 10) = 3 := by
        rw [ratTrunc, if_pos (by norm_num : (0 : ℚ) ≤ 39 / 10)]
        norm_num
      rw [IntTarget.cast, htrunc]
      norm_num [IntTarget.minVal, IntTarget.maxVal]
    show (f32_try_from (.String "3.9")).map IntTarget.i32.cast = .ok 3
    simp [f32_try_from, hparse, Except.map, hcast]
  · show (f32_try_from v).map t.cast ≠ .error .ParseIntError
    cases hq : f32_try_from v with
    | error e =>
      simp only [hq, Except.map]
      intro hh
      injection hh with hh2
      exact hfloat v (by rw [hq, hh2])
    | ok q => simp [hq, Except.map]
  · cases v with
    | Number x => simp [bool_try_from]
    | String s =>
      cases h : bool_from_str s <;> simp [bool_try_from, h]
    | Boolean b => simp [bool_try_from]
  · cases v <;> simp [string_try_from]
  · cases a <;> simp [convertible_try_from_any]

/-- Claim C10, witness: the success characterization applied at the
concrete target `i32` and text `"3.9"`, discharged by the concrete
conversion result. -/
theorem int_try_from_spec_witness : (f32_from_str "3.9").isSome = true :=
  (int_try_from_spec.2.1 IntTarget.i32 "3.9").mp ⟨3, int_try_from_spec.2.2.1⟩

/-! ## Listener state lemmas -/

lemma emit_current_node (i : Instruction) (s : CompilerListener) (n : Node)
    (h : s.current_node = some n) :
    (emit i s).current_node = some { n with instructions := n.instructions ++ [i] } := by
  simp [emit, h]

lemma emit_tracking_nodes (i : Instruction) (s : CompilerListener) :
    (emit i s).tracking_nodes = s.tracking_nodes := by
  cases h : s.current_node <;> simp [emit, h]

lemma foldl_emit_current_node (l : List Instruction) (s : CompilerListener)
    (n : Node) (h : s.current_node = some n) :
    (l.foldl (fun acc i => emit i acc) s).current_node =
      some { n with instructions := n.instructions ++ l } := by
  induction l generalizing s n with
  | nil => simpa using h
  | cons i t ih =>
    simp only [List.foldl_cons]
    rw [ih (emit i s) { n with instructions := n.instructions ++ [i] }
      (emit_current_node i s n h)]
    simp [List.append_assoc]

lemma foldl_emit_tracking_nodes (l : List Instruction) (s : CompilerListener) :
    (l.foldl (fun acc i => emit i acc) s).tracking_nodes = s.tracking_nodes := by
  induction l generalizing s with
  | nil => rfl
  | cons i t ih => simp [List.foldl_cons, ih, emit_tracking_nodes]

lemma exit_body_current_node (L : ℕ) (s : CompilerListener) (n : Node)
    (h : s.current_node = some n) :
    (exit_body L s).current_node =
      some { n with instructions :=
        (n.instructions ++ trackingInstructions s.tracking_nodes n.name) ++
          [stopInstruction L] } := by
  by_cases ht : n.name ∈ s.tracking_nodes <;>
    simp [exit_body, h, ht, generate_tracking_code, emit, trackingInstructions,
      stopInstruction, List.append_assoc]

lemma enter_body_raw (stmts : List Instruction) (s : CompilerListener) (n : Node)
    (hraw : s.is_current_node_raw_text = true) (h : s.current_node = some n) :
    (enter_body stmts s).current_node =
      some { n with source_text_string_id := some (get_line_id_for_node_name n.name) } ∧
    (enter_body stmts s).tracking_nodes = s.tracking_nodes := by
  constructor <;> simp [enter_body, hraw, h]

lemma enter_body_syntactic (stmts : List Instruction) (s : CompilerListener)
    (n : Node) (hraw : s.is_current_node_raw_text = false)
    (h : s.current_node = some n) :
    (∃ label : String,
      (enter_body stmts s).current_node =
        some { n with
               labels := n.labels ++ [(label, (n.instructions.length : ℤ))]
               instructions := n.instructions ++ stmts }) ∧
    (enter_body stmts s).tracking_nodes = s.tracking_nodes := by
  constructor
  · refine ⟨"L" ++ toString s.label_count ++ "", ?_⟩
    simp only [enter_body, hraw, Bool.not_false, if_true, register_label, h]
    rw [foldl_emit_current_node stmts _ _ rfl]
    simp
  · simp [enter_body, hraw, register_label, h, foldl_emit_tracking_nodes]

/-! ## Claims about the code-generator listener -/

/-- Claim C3, counterexample: exiting a node whose headers set no title
pushes the missing-title diagnostic and leaves the program unchanged, but —
contrary to the claim — pushes no debug-info record: the debug-info list
stays empty rather than growing by one (the source pushes debug info only
in the titled branch of `exit_node`). -/
theorem exit_node_untitled_claim_false :
    (exit_node { line := 0, character := 0 } (enter_node listener0)).diagnostics.length = 1 ∧
    (exit_node { line := 0, character := 0 } (enter_node listener0)).program = listener0.program ∧
    (exit_node { line := 0, character := 0 } (enter_node listener0)).debug_infos = [] ∧
    (exit_node { line := 0, character := 0 } (enter_node listener0)).debug_infos.length ≠
      (enter_node listener0).debug_infos.length + 1 := by
  decide

/-- Claim C3, amended: for every node whose headers set no title (empty
node name), `exit_node` pushes exactly one missing-title error diagnostic,
inserts no entry into the program, and pushes no debug-info record. -/
theorem exit_node_untitled (s : CompilerListener) (n : Node) (p : Position)
    (h : s.current_node = some n) (hname : n.name = "") :
    (exit_node p s).diagnostics = s.diagnostics ++
      [{ message := "Missing title header for node"
         file_name := some s.file_name
         context_position := some p
         severity := .Error }] ∧
    (exit_node p s).program = s.program ∧
    (exit_node p s).debug_infos = s.debug_infos ∧
    (exit_node p s).current_node = none := by
  refine ⟨?_, ?_, ?_, ?_⟩ <;> simp [exit_node, h, hname]

/-- Claim C3, witness: the amended statement applied to the concrete fresh
listener with an immediately exited, untitled node. -/
theorem exit_node_untitled_witness :
    (exit_node { line := 0, character := 0 } (enter_node listener0)).diagnostics =
      (enter_node listener0).diagnostics ++
        [{ message := "Missing title header for node"
           file_name := some (enter_node listener0).file_name
           context_position := some { line := 0, character := 0 }
           severity := .Error }] ∧
    (exit_node { line := 0, character := 0 } (enter_node listener0)).debug_infos =
      (enter_node listener0).debug_infos :=
  let h := exit_node_untitled (enter_node listener0) {} { line := 0, character := 0 } rfl rfl
  ⟨h.1, h.2.2.1⟩

/-- Claim C4, counterexample: for the concrete raw-text node `Raw`
(tags header contains `rawText`), the body sets the source-text line
identifier, but the instruction sequence does not remain empty: `exit_body`
unconditionally appends the terminal `Stop` instruction, so the two
representations are not mutually exclusive in the code. -/
theorem raw_text_node_claim_false :
    ((exit_body 1 (enter_body [] rawListener)).current_node.map
        fun m => m.source_text_string_id) = some (some "line:Raw") ∧
    ((exit_body 1 (enter_body [] rawListener)).current_node.map
        fun m => m.instructions) =
      some [{ opcode := .Stop, position := { line := 0, character := 0 } }] ∧
    ((exit_body 1 (enter_body [] rawListener)).current_node.map
        fun m => m.instructions.isEmpty) = some false := by
  decide

/-- Claim C4, amended: for every raw-text node, `enter_body` emits no
instructions (the result does not depend on the statement instructions) and
attaches the line identifier derived from the node name as the source-text
reference; but `exit_body` still appends its instructions — the tracking
update when the node is tracked, and unconditionally the terminal `Stop` —
so the node's instruction sequence ends non-empty with the stop
instruction: the two representations are not mutually exclusive. -/
theorem raw_text_node_gets_stop (s : CompilerListener) (n : Node) (L : ℕ)
    (stmts : List Instruction)
    (hraw : s.is_current_node_raw_text = true) (h : s.current_node = some n) :
    (exit_body L (enter_body stmts s)).current_node =
      some { n with
             source_text_string_id := some (get_line_id_for_node_name n.name)
             instructions :=
               (n.instructions ++ trackingInstructions s.tracking_nodes n.name) ++
                 [stopInstruction L] } ∧
    ((n.instructions ++ trackingInstructions s.tracking_nodes n.name) ++
        [stopInstruction L]) ≠ [] ∧
    ((n.instructions ++ trackingInstructions s.tracking_nodes n.name) ++
        [stopInstruction L]).getLast? = some (stopInstruction L) := by
  obtain ⟨hcur, htrack⟩ := enter_body_raw stmts s n hraw h
  have hx := exit_body_current_node L (enter_body stmts s) _ hcur
  rw [htrack] at hx
  exact ⟨by simpa using hx, by simp, List.getLast?_concat _⟩

/-- Claim C4, witness: the amended statement applied to the concrete
raw-text node `Raw` with closing token line `1` and no statement
instructions. -/
theorem raw_text_node_gets_stop_witness :
    (exit_body 1 (enter_body [] rawListener)).current_node =
      some { rawNode with
             source_text_string_id := some (get_line_id_for_node_name rawNode.name)
             instructions :=
               (rawNode.instructions ++
                   trackingInstructions rawListener.tracking_nodes rawNode.name) ++
                 [stopInstruction 1] } :=
  (raw_text_node_gets_stop rawListener rawNode 1 [] (by decide) (by decide)).1

/-- Claim C5: for every syntactic (non-raw-text) node, the body's
compilation yields a non-empty instruction sequence whose last instruction
is the terminal `Stop`, positioned at the body's closing token line
saturating-minus one and character `0` — the line never goes below zero,
also when the token reports line zero. -/
theorem syntactic_node_ends_with_stop (s : CompilerListener) (n : Node)
    (L : ℕ) (stmts : List Instruction)
    (hraw : s.is_current_node_raw_text = false) (h : s.current_node = some n) :
    ∃ label : String,
      (exit_body L (enter_body stmts s)).current_node =
        some { n with
               labels := n.labels ++ [(label, (n.instructions.length : ℤ))]
               instructions :=
                 ((n.instructions ++ stmts) ++
                     trackingInstructions s.tracking_nodes n.name) ++
                   [stopInstruction L] } ∧
      (((n.instructions ++ stmts) ++ trackingInstructions s.tracking_nodes n.name) ++
          [stopInstruction L]) ≠ [] ∧
      (((n.instructions ++ stmts) ++ trackingInstructions s.tracking_nodes n.name) ++
          [stopInstruction L]).getLast? = some (stopInstruction L) ∧
      (stopInstruction L).position.line = L - 1 ∧
      (stopInstruction 0).position.line = 0 := by
  obtain ⟨⟨label, hcur⟩, htrack⟩ := enter_body_syntactic stmts s n hraw h
  have hx := exit_body_current_node L (enter_body stmts s) _ hcur
  rw [htrack] at hx
  exact ⟨label, by simpa [List.append_assoc] using hx, by simp,
    List.getLast?_concat _, rfl, rfl⟩

/-- Claim C5, witness: the stop-termination statement applied to the
concrete node `Start` with an empty body and a closing token that reports
line zero — the emitted stop stays at line zero. -/
theorem syntactic_node_ends_with_stop_witness :
    ((exit_body 0 (enter_body [] titledListener)).current_node.map
        fun m => m.instructions.getLast?) = some (some (stopInstruction 0)) := by
  obtain ⟨label, hnode, -, -, -, -⟩ :=
    syntactic_node_ends_with_stop titledListener startNode 0 [] (by decide) (by decide)
  rw [hnode]
  simp

/-- Claim C6, counterexample: after compiling two nodes both titled `A`,
the program holds exactly one node named `A` — the first-declared one, with
the first body's instructions — and the duplicate's instructions are
discarded; but, contrary to the claim, no diagnostic is emitted for the
duplicate: the diagnostics list is empty. -/
theorem duplicate_node_claim_false :
    dupStep2.program.nodes.map Prod.fst = ["A"] ∧
    (dupStep2.program.nodes.lookup "A").map Node.instructions =
      some [stmtInstr 1, { opcode := .Stop, position := { line := 0, character := 0 } }] ∧
    dupStep2.diagnostics = [] := by
  decide

/-- Claim C6, amended: for every node whose (non-empty) name is already
present in the program, `exit_node` leaves the program unchanged — the
first-declared node wins and the duplicate's instructions are discarded —
and pushes a debug-info record for the duplicate, but emits no diagnostic
(the source defers duplicate diagnosis to a declarations pass that the
registered compiler steps do not implement). -/
theorem exit_node_duplicate (s : CompilerListener) (n existing : Node)
    (p : Position) (h : s.current_node = some n) (hname : ¬ n.name = "")
    (hdup : s.program.nodes.lookup n.name = some existing) :
    (exit_node p s).program = s.program ∧
    (exit_node p s).diagnostics = s.diagnostics ∧
    (exit_node p s).program.nodes.lookup n.name = some existing ∧
    (exit_node p s).debug_infos = s.debug_infos ++
      [{ s.current_debug_info with
         node_name := n.name
         file_name := s.file_name }] := by
  refine ⟨?_, ?_, ?_, ?_⟩ <;> simp [exit_node, h, hname, hdup]

/-- Claim C6, witness: the amended statement applied to the concrete
duplicate node `A`, whose first declaration is already in the program. -/
theorem exit_node_duplicate_witness :
    (exit_node { line := 0, character := 0 } dupPending).program =
      dupPending.program ∧
    (exit_node { line := 0, character := 0 } dupPending).diagnostics =
      dupPending.diagnostics ∧
    (exit_node { line := 0, character := 0 } dupPending).program.nodes.lookup
      nodeA2.name = some nodeA1 :=
  let h := exit_node_duplicate dupPending nodeA2 nodeA1 { line := 0, character := 0 }
    (by decide) (by decide) (by decide)
  ⟨h.1, h.2.1, h.2.2.1⟩

end YarnSlinger
